import Mathlib

/-!
Shallow embedding of the LAMMPS job execution and monitoring engine
(`app/services/lammps_service.py` and `app/tasks/simulation_tasks.py`),
with theorems settling the spec claims about status inference, the
monitor/retry loop, staging validation, cleanup and the script validator.

Filesystem and process state are modelled explicitly (`SimWorld`); the
Python functions become total Lean functions over that state, with
exceptions that escape a function modelled as `Except.error` and
exceptions that the code catches folded into the corresponding branch.
-/

deriving instance DecidableEq for Except

namespace Lammps

/-! ### String search (Python `in` on `str`) -/

/-- Prefix test: `strStarts needle hay` means `needle` is a prefix of `hay` (on char lists). -/
def strStarts : List Char → List Char → Bool
  | [], _ => true
  | _ :: _, [] => false
  | a :: as, b :: bs => a == b && strStarts as bs

/-- Substring search: `strFind needle hay` means `needle` occurs contiguously somewhere in `hay`. -/
def strFind (needle : List Char) : List Char → Bool
  | [] => strStarts needle []
  | c :: rest => strStarts needle (c :: rest) || strFind needle rest

/-- Python `needle in hay` for strings. -/
def strContains (hay needle : String) : Bool :=
  strFind needle.data hay.data

/-- ASCII uppercase of one character (Python `str.upper` on the ASCII
range, which is all the marker scan relies on). -/
def asciiUpper (c : Char) : Char :=
  if 97 ≤ c.toNat && c.toNat ≤ 122 then Char.ofNat (c.toNat - 32) else c

/-- Python `s.upper()` restricted to the ASCII case mapping. -/
def pyUpper (s : String) : String :=
  String.mk (s.data.map asciiUpper)

/-! ### Identifier and file-name grammars (Python `re.match`) -/

/-- Character class `[a-zA-Z0-9\-_]` of `_validate_simulation_id`. -/
def isSimIdChar (c : Char) : Bool :=
  c.isAlpha || c.isDigit || c == '-' || c == '_'

/-- Character class `[a-zA-Z0-9._\-]` used for potential file names in
`run_simulation` (note: additionally allows `.`). -/
def isPotentialFileChar (c : Char) : Bool :=
  c.isAlpha || c.isDigit || c == '.' || c == '_' || c == '-'

/-- Semantics of Python `re.match(r'^[cls]+$', s)`: the whole string is a
non-empty run of class characters, or the same followed by one final
newline (Python `$` also matches just before a trailing newline). -/
def pyFullMatchPlus (cls : Char → Bool) (s : String) : Bool :=
  (!s.data.isEmpty && s.data.all cls) ||
    (match s.data.getLast? with
     | some c => c == '\n' && (!s.data.dropLast.isEmpty && s.data.dropLast.all cls)
     | none => false)

/-- Model of `_validate_simulation_id`: `re.match(r'^[a-zA-Z0-9\-_]+$', simulation_id)`. -/
def validate_simulation_id (simulation_id : String) : Bool :=
  pyFullMatchPlus isSimIdChar simulation_id

/-- The potential-file-name check in `run_simulation`:
`re.match(r'^[a-zA-Z0-9._\-]+$', potential_file)`. -/
def potentialNameOk (potential_file : String) : Bool :=
  pyFullMatchPlus isPotentialFileChar potential_file

/-! ### On-disk state of one simulation

`SimWorld` is the filesystem/process evidence `get_simulation_status`,
`get_simulation_logs` and `cleanup_simulation` read for one job:
whether the workspace directory exists, the state of `process.json`,
the state of `logs/lammps.log`, liveness of pids (`os.kill(pid, 0)`
succeeding), and whether `shutil.rmtree` would raise. -/

/-- State of the `process.json` descriptor file.
`absent`: file missing. `unreadable`: `open` raises an `OSError` that the
inner `except (json.JSONDecodeError, KeyError)` does not catch.
`corrupt`: `json.load` raises `JSONDecodeError` (caught, liveness `false`).
`ok pid`: parsed JSON whose `"pid"` field is `pid` (`none` for a missing
field; `some 0` is falsy in Python's `if pid:`). -/
inductive PJson
  | absent
  | unreadable (msg : String)
  | corrupt
  | ok (pid : Option Int)
  deriving DecidableEq, Repr

/-- Decoded content and on-disk byte size of `logs/lammps.log`. -/
structure LogFileData where
  content : String
  byteSize : Nat
  deriving DecidableEq, Repr

/-- State of `logs/lammps.log`. `unreadable msg` models `open`/`read`
raising (caught inside the log branch of `get_simulation_status`). -/
inductive LogState
  | absent
  | unreadable (msg : String)
  | readable (d : LogFileData)
  deriving DecidableEq, Repr

/-- On-disk and process-table state for one job. `alive p` is whether
`os.kill(p, 0)` succeeds; `rmtreeRaises` is whether `shutil.rmtree` on the
workspace would raise (and with what message). -/
structure SimWorld where
  workspaceExists : Bool
  pjson : PJson
  logState : LogState
  alive : Int → Bool
  rmtreeRaises : Option String

/-- The dictionary `get_simulation_status` returns (modelled fields:
`status`, `message`, `error`, `process_running`). -/
structure StatusResult where
  status : String
  message : Option String := none
  error : Option String := none
  process_running : Option Bool := none
  deriving DecidableEq, Repr

/-- Lines 260–281 of `lammps_service.py`: read `process.json` and probe the
pid with `os.kill(pid, 0)`. `Except.error` is an exception escaping to the
outer handler (`OSError` from `open`, uncaught there); `.ok pr` is the
computed `process_running`. -/
def probeProcess (w : SimWorld) : Except String Bool :=
  match w.pjson with
  | .absent => .ok false
  | .unreadable msg => .error msg
  | .corrupt => .ok false
  | .ok pid =>
    match pid with
    | none => .ok false
    | some n => if n == 0 then .ok false else .ok (w.alive n)

/-- Log scan of `get_simulation_status` (lines 283–341), given the log
state and the already-computed `process_running`. -/
def statusFromLog (ls : LogState) (pr : Bool) : StatusResult :=
  match ls with
  | .absent =>
    if pr then
      { status := "starting", message := some "Simulation is starting",
        process_running := some true }
    else
      { status := "pending", message := some "Simulation not started",
        process_running := some false }
  | .unreadable msg =>
    { status := "unknown", error := some ("Failed to read log file: " ++ msg),
      process_running := some pr }
  | .readable d =>
    if strContains (pyUpper d.content) "ERROR" then
      { status := "failed", message := some "Simulation failed with errors",
        process_running := some pr }
    else if strContains d.content "Total wall time:" ||
        strContains d.content "Loop time of" then
      { status := "completed", message := some "Simulation completed successfully",
        process_running := some pr }
    else if !pr then
      { status := "failed",
        message := some "Simulation process terminated unexpectedly",
        process_running := some false }
    else
      { status := "running", message := some "Simulation is running",
        process_running := some pr }

/-- Model of `get_simulation_status` after the simulation-id check: workspace
existence test, process probe (an escaping exception yields the outer
handler's `{"status": "error"}` dictionary), then the log scan. -/
def get_simulation_status (w : SimWorld) : StatusResult :=
  if !w.workspaceExists then
    { status := "not_found", error := some "Simulation workspace not found" }
  else
    match probeProcess w with
    | .error e => { status := "error", error := some e }
    | .ok pr => statusFromLog w.logState pr

/-- Model of `get_simulation_status` including the leading
`_validate_simulation_id` check, which raises `ValueError` (modelled as
`Except.error`) on an invalid id. -/
def get_simulation_status_checked (simulation_id : String) (w : SimWorld) :
    Except String StatusResult :=
  if !validate_simulation_id simulation_id then
    .error ("Invalid simulation ID: " ++ simulation_id)
  else
    .ok (get_simulation_status w)

end Lammps

namespace Lammps

/-! ### Helper lemmas about status inference -/

/-- Every status the log scan can produce. -/
theorem statusFromLog_status_mem (ls : LogState) (pr : Bool) :
    (statusFromLog ls pr).status ∈
      ["pending", "starting", "running", "completed", "failed", "not_found",
       "unknown", "error"] := by
  cases ls <;> cases pr <;> simp only [statusFromLog] <;>
    first
      | decide
      | (split_ifs <;> decide)

/-- Every status `get_simulation_status` can produce. -/
theorem get_simulation_status_mem (w : SimWorld) :
    (get_simulation_status w).status ∈
      ["pending", "starting", "running", "completed", "failed", "not_found",
       "unknown", "error"] := by
  unfold get_simulation_status
  split
  · decide
  · split
    · simp
    · exact statusFromLog_status_mem _ _

/-- A `"completed"` inference forces a readable log carrying one of the two
completion markers and no error marker. -/
theorem completed_requires_marker (w : SimWorld)
    (h : (get_simulation_status w).status = "completed") :
    ∃ d, w.logState = .readable d ∧
      strContains (pyUpper d.content) "ERROR" = false ∧
      (strContains d.content "Total wall time:" = true ∨
       strContains d.content "Loop time of" = true) := by
  unfold get_simulation_status at h
  split at h
  · simp at h
  · split at h
    · simp at h
    · cases hls : w.logState with
      | absent =>
        rw [hls] at h; simp only [statusFromLog] at h
        split_ifs at h <;> simp at h
      | unreadable msg =>
        rw [hls] at h; simp only [statusFromLog] at h
        simp at h
      | readable d =>
        rw [hls] at h; simp only [statusFromLog] at h
        refine ⟨d, rfl, ?_⟩
        split_ifs at h with h1 h2 h3
        · simp at h
        · exact ⟨by simpa using h1, by simpa using h2⟩
        · simp at h
        · simp at h

/-! ### `get_simulation_logs` (lines 350–415)

The hard size ceiling (50 MB) lives here, not in `get_simulation_status`. -/

/-- Constant `max_file_size = 50 * 1024 * 1024` of `get_simulation_logs`. -/
def MAX_LOG_FILE_SIZE : Nat := 50 * 1024 * 1024

/-- The dictionary `get_simulation_logs` returns (modelled fields:
`success`, `logs`, `lines`, `message`, `error`). -/
structure LogsResult where
  success : Bool
  logs : Option String := none
  lines : Option Nat := none
  message : Option String := none
  error : Option String := none
  deriving DecidableEq, Repr

/-- Python `f.readlines()` on text already decoded in universal-newline
mode (so `'\n'` is the only separator): split into lines, each keeping its
trailing newline, with a possibly newline-less final chunk. -/
def readlinesAux (acc : List Char) : List Char → List String
  | [] => if acc.isEmpty then [] else [String.mk acc.reverse]
  | c :: rest =>
    if c == '\n' then String.mk (acc.reverse ++ ['\n']) :: readlinesAux [] rest
    else readlinesAux (c :: acc) rest

/-- Model of `f.readlines()` on a whole decoded file. -/
def readlines (s : String) : List String :=
  readlinesAux [] s.data

/-- Clamp `tail_lines = max(1, min(tail_lines, 10000))`. -/
def clampTailLines (t : Int) : Int := max 1 (min t 10000)

/-- Model of `get_simulation_logs`: id check (raises on invalid id), workspace
check, then either report a missing log, refuse an oversized log, or
return the last `tail_lines` lines. `lines` counts lines of the returned
text (Python `splitlines`, which on `'\n'`-only text agrees with
`readlines`). -/
def get_simulation_logs (simulation_id : String) (w : SimWorld)
    (tail0 : Int) : Except String LogsResult :=
  if !validate_simulation_id simulation_id then
    .error ("Invalid simulation ID: " ++ simulation_id)
  else
    let tl := clampTailLines tail0
    if !w.workspaceExists then
      .ok { success := false, error := some "Simulation workspace not found" }
    else
      match w.logState with
      | .absent =>
        .ok { success := true, logs := some "", lines := some 0,
              message := some "Log file not found" }
      | .unreadable msg =>
        .ok { success := false, error := some ("Failed to read logs: " ++ msg) }
      | .readable d =>
        if d.byteSize > MAX_LOG_FILE_SIZE then
          .ok { success := false,
                error := some ("Log file too large (" ++ toString d.byteSize ++
                  " bytes). Maximum allowed: " ++ toString MAX_LOG_FILE_SIZE ++
                  " bytes") }
        else
          let ls := readlines d.content
          let kept := if (ls.length : Int) > tl then
              ls.drop (ls.length - tl.toNat) else ls
          let text := String.join kept
          .ok { success := true, logs := some text,
                lines := some (readlines text).length }

/-! ### Script validator (`validate_input_script`, lines 89–146) -/

/-- Constant `settings.MAX_SCRIPT_SIZE = 1024 * 1024`. -/
def MAX_SCRIPT_SIZE : Nat := 1024 * 1024

/-- How the external syntax-check subprocess behaves: it finishes with an
exit code and captured stderr, hits the 30-second timeout
(`subprocess.TimeoutExpired`), or some other exception is raised with
text `msg`. -/
inductive SubprocOutcome
  | finished (returncode : Int) (stderrText : String)
  | timedOut
  | raised (msg : String)
  deriving DecidableEq, Repr

/-- The dictionary `validate_input_script` returns. Every return path
carries a `valid` key; `error` is present on the failure paths. -/
structure ValidationResult where
  valid : Bool
  message : String
  error : Option String := none
  deriving DecidableEq, Repr

/-- Model of `validate_input_script`: size ceiling first (the dangerous-command
scan only logs warnings and affects no result), then classification of
the subprocess outcome. `except subprocess.TimeoutExpired` precedes the
catch-all `except Exception`, so a timeout is never classified as a
generic validation error, and the catch-all converts any other exception
into a `valid = false` dictionary instead of propagating it. -/
def validate_input_script (script_content : String) (run : SubprocOutcome) :
    ValidationResult :=
  if script_content.length > MAX_SCRIPT_SIZE then
    { valid := false, message := "Script too large",
      error := some ("Script size exceeds " ++ toString MAX_SCRIPT_SIZE ++
        " bytes") }
  else
    match run with
    | .finished rc stderrText =>
      if rc == 0 then
        { valid := true, message := "Input script is valid" }
      else
        { valid := false, message := "Input script validation failed",
          error := some stderrText }
    | .timedOut =>
      { valid := false, message := "Validation timeout",
        error := some "Script validation took too long" }
    | .raised msg =>
      { valid := false, message := "Validation error", error := some msg }

/-! ### Potential-file staging in `run_simulation` (lines 170–185) -/

/-- Per-file outcome of the staging loop: skipped by the name check
(warning only), copied from the potentials root, or absent there
(warning only). -/
inductive StageOutcome
  | skippedUnsafe
  | copied
  | notFound
  deriving DecidableEq, Repr

/-- What `potentials_path / name` resolves to on disk. `missing`:
`src.exists()` is false. `file copyError`: an existing regular file,
where `shutil.copy2` either succeeds (`none`) or raises with text `e`
(`some e`). `directory`: an existing directory — the in-class name `"."`
resolves to the potentials root itself, so it is a directory whenever
the root exists — on which `shutil.copy2` raises `IsADirectoryError`. -/
inductive PotentialSource
  | missing
  | file (copyError : Option String)
  | directory
  deriving DecidableEq, Repr

/-- Semantics of `if src.exists(): shutil.copy2(src, dst) else warn` for
one name: a missing source only warns, a regular file is copied unless
the copy raises, and a directory source makes `copy2` raise
`IsADirectoryError` (its `str(e)` text). A raised exception escapes the
staging loop. -/
def copyPotentialSource (name : String) (src : PotentialSource) :
    Except String StageOutcome :=
  match src with
  | .missing => .ok .notFound
  | .file none => .ok .copied
  | .file (some e) => .error e
  | .directory => .error ("[Errno 21] Is a directory: " ++ name)

/-- One iteration of the staging loop: re-validate the name against
`^[a-zA-Z0-9._\-]+$` and `continue` (skip) on failure; then
`_sanitize_path(potentials / name, potentials)`, which raises
`ValueError` exactly for the one in-class name that resolves outside the
root, `".."`; then the exists-and-copy step (`copyPotentialSource`).
An `Except.error` propagates out of the staging loop (it is caught only
by `run_simulation`'s outer handler, failing the launch). -/
def stagePotentialFile (potfs : String → PotentialSource) (name : String) :
    Except String StageOutcome :=
  if !potentialNameOk name then .ok .skippedUnsafe
  else if name == ".." then
    .error ("Path " ++ name ++ " is outside base directory")
  else copyPotentialSource name (potfs name)

/-- The whole staging loop, in order, stopping at the first escaping
exception. -/
def stagePotentialFiles (potfs : String → PotentialSource) :
    List String → Except String (List StageOutcome)
  | [] => .ok []
  | n :: rest =>
    match stagePotentialFile potfs n with
    | .error e => .error e
    | .ok o =>
      match stagePotentialFiles potfs rest with
      | .error e => .error e
      | .ok os => .ok (o :: os)

/-! ### Launch (`run_simulation`, lines 148–240) -/

/-- The dictionary `run_simulation` returns (modelled fields: `success`,
`error`). -/
structure RunSimResult where
  success : Bool
  error : Option String := none
  deriving DecidableEq, Repr

/-- Model of `run_simulation`: the id and MPI-worker checks raise `ValueError`
(before the `try`, so they escape — `Except.error`); inside the `try`,
a failure writing the script (`writeScriptError`), an exception escaping
the staging loop, or a spawn/descriptor failure (`spawnError`) is caught
by the function's own handler and becomes a `success = false`
dictionary. A clean spawn returns `success = true` after persisting the
process descriptor. -/
def run_simulation (simulation_id : String) (mpi_processes : Int)
    (potfs : String → PotentialSource) (potential_files : List String)
    (writeScriptError : Option String) (spawnError : Option String) :
    Except String RunSimResult :=
  if !validate_simulation_id simulation_id then
    .error ("Invalid simulation ID: " ++ simulation_id)
  else if mpi_processes < 1 || mpi_processes > 16 then
    .error "MPI processes must be between 1 and 16"
  else
    match writeScriptError with
    | some e => .ok { success := false, error := some e }
    | none =>
      match stagePotentialFiles potfs potential_files with
      | .error e => .ok { success := false, error := some e }
      | .ok _ =>
        match spawnError with
        | some e => .ok { success := false, error := some e }
        | none => .ok { success := true }

/-! ### Monitor & retry loop (`run_lammps_simulation`, tasks lines 13–177) -/

/-- Constant `max_wait_time = 3600` seconds. -/
def MAX_WAIT_TIME : Nat := 3600

/-- Constant `check_interval = 10` seconds. -/
def CHECK_INTERVAL : Nat := 10

/-- Number of iterations of `while elapsed_time < max_wait_time` with
`elapsed_time += check_interval` per iteration: 360. -/
def NUM_POLLS : Nat := MAX_WAIT_TIME / CHECK_INTERVAL

/-- How one exit of the poll loop happened: `break` on a `completed`
status at poll `i`, `RuntimeError` on a `failed` status at poll `i`, or
the loop running out of wall clock (after which the task raises
`RuntimeError("Simulation timeout")`). Statuses other than
`completed`/`failed` only update progress and continue. -/
inductive LoopExit
  | completedAt (i : Nat)
  | failedAt (i : Nat) (msg : String)
  | timedOutLoop
  deriving DecidableEq, Repr

/-- The poll loop, `fuel` iterations remaining, next poll index `i`. -/
def pollLoop (statuses : Nat → StatusResult) : Nat → Nat → LoopExit
  | 0, _ => .timedOutLoop
  | fuel + 1, i =>
    let s := statuses i
    if s.status == "completed" then .completedAt i
    else if s.status == "failed" then
      .failedAt i (s.message.getD "Simulation failed")
    else pollLoop statuses fuel (i + 1)

/-- Outcome of one invocation of the Celery task: `retry` re-raises via
`self.retry` (after best-effort cleanup), `finalFailure` returns the
`success = false` dictionary once retries are exhausted, `success`
returns the `success = true` dictionary. -/
inductive TaskOutcome
  | retry (errMsg : String)
  | finalFailure (errMsg : String)
  | success
  deriving DecidableEq, Repr

/-- Environment of one task invocation: the request arguments, the
behaviour of the external world (validator subprocess, staging,
spawn, filesystem state at each poll) and the Celery retry counters
(`max_retries = 3` on the task decorator; `retries` is
`self.request.retries`). -/
structure TaskEnv where
  simulation_id : String
  input_script : String
  mpi_processes : Int
  validationRun : SubprocOutcome
  potfs : String → PotentialSource
  potential_files : List String
  writeScriptError : Option String
  spawnError : Option String
  worlds : Nat → SimWorld
  retries : Nat
  max_retries : Nat

/-- The `except Exception` handler at the end of `run_lammps_simulation`:
best-effort cleanup, then `self.retry` while retries remain, else the
final-failure dictionary with the last error text. -/
def retryOrFail (env : TaskEnv) (msg : String) : TaskOutcome :=
  if env.retries < env.max_retries then .retry msg else .finalFailure msg

/-- Model of `run_lammps_simulation`: input checks (each raising `ValueError`
into the catch-all handler), pre-flight script validation (an invalid
result raises `ValueError` into the same handler), launch, then the
poll loop; `completed` breaks to result collection and the
`success = true` return, `failed` and timeout raise `RuntimeError` into
the handler. Non-string argument types cannot arise in this typed
embedding; the status polled at iteration `i` is
`get_simulation_status (env.worlds i)`. -/
def run_lammps_simulation (env : TaskEnv) : TaskOutcome :=
  if env.simulation_id == "" then retryOrFail env "Invalid simulation_id"
  else if env.input_script == "" then retryOrFail env "Invalid input_script"
  else if env.input_script.length > 1024 * 1024 then
    retryOrFail env "Input script too large"
  else if env.mpi_processes < 1 || env.mpi_processes > 16 then
    retryOrFail env "Invalid MPI processes count"
  else
    if !(validate_input_script env.input_script env.validationRun).valid then
      retryOrFail env
        ("Script validation failed: " ++
          (validate_input_script env.input_script
            env.validationRun).error.getD "Script validation failed")
    else
      match run_simulation env.simulation_id env.mpi_processes env.potfs
          env.potential_files env.writeScriptError env.spawnError with
      | .error e => retryOrFail env e
      | .ok r =>
        if !r.success then
          retryOrFail env (r.error.getD "Failed to start simulation")
        else
          match pollLoop (fun i => get_simulation_status (env.worlds i))
              NUM_POLLS 0 with
          | .failedAt _ m => retryOrFail env ("Simulation failed: " ++ m)
          | .timedOutLoop => retryOrFail env "Simulation timeout"
          | .completedAt _ => .success

/-! ### Cleanup (`cleanup_simulation`, lines 474–535) -/

/-- The dictionary `cleanup_simulation` returns. -/
structure CleanupResult where
  success : Bool
  message : Option String := none
  error : Option String := none
  deriving DecidableEq, Repr

/-- Effect of `os.killpg(os.getpgid(pid), ...)`: the job's process group is dead
afterwards (the SIGTERM / 2-second wait / SIGKILL escalation ends with
the group gone on every path; only the logging differs). -/
def killGroup (w : SimWorld) (pid : Int) : SimWorld :=
  { w with alive := fun q => if q == pid then false else w.alive q }

/-- The termination section of `cleanup_simulation`: read `process.json`
(any exception is caught by the section's own handler and only logged),
and for a truthy pid whose process still exists, kill its group;
`os.getpgid` on a dead pid raises `ProcessLookupError`, which is caught
and logged. -/
def terminatePhase (w : SimWorld) : SimWorld :=
  match w.pjson with
  | .ok (some pid) =>
    if pid == 0 then w
    else if w.alive pid then killGroup w pid else w
  | _ => w

/-- Model of `cleanup_simulation` after the id check: missing workspace is an
idempotent success; otherwise terminate, then `shutil.rmtree` — a
removal failure is caught and reported as `success = false` (never
propagated), a successful removal deletes the workspace tree including
`process.json` and the logs. Returns the result dictionary and the
post-state. -/
def cleanup0 (w : SimWorld) : CleanupResult × SimWorld :=
  if !w.workspaceExists then
    ({ success := true, message := some "Workspace already cleaned or not found" }, w)
  else
    let w1 := terminatePhase w
    match w.rmtreeRaises with
    | some e =>
      ({ success := false, error := some ("Failed to cleanup: " ++ e) }, w1)
    | none =>
      ({ success := true,
         message := some "Simulation workspace cleaned up successfully" },
       { workspaceExists := false, pjson := .absent, logState := .absent,
         alive := w1.alive, rmtreeRaises := w1.rmtreeRaises })

/-- Model of `cleanup_simulation` including the leading id check (raises on an
invalid id). -/
def cleanup_simulation (simulation_id : String) (w : SimWorld) :
    Except String (CleanupResult × SimWorld) :=
  if !validate_simulation_id simulation_id then
    .error ("Invalid simulation ID: " ++ simulation_id)
  else .ok (cleanup0 w)

/-! ### Claim theorems: status inference -/

/-- C1 counterexample: a job whose workspace exists and whose readable
log contains the error marker, but whose `process.json` `open` raises an
`OSError`: the exception escapes the inner
`except (json.JSONDecodeError, KeyError)` handler to the outer one
before the log is ever scanned, so `get_simulation_status` returns
`"error"`, not `"failed"` — refuting the claim's unconditional
universal quantification. -/
theorem error_marker_with_unreadable_descriptor :
    strContains (pyUpper "ERROR: lost atoms") "ERROR" = true ∧
    get_simulation_status
      { workspaceExists := true,
        pjson := .unreadable "[Errno 5] Input/output error: process.json",
        logState := .readable { content := "ERROR: lost atoms", byteSize := 17 },
        alive := fun _ => false, rmtreeRaises := none } =
      { status := "error",
        error := some "[Errno 5] Input/output error: process.json" } ∧
    "error" ≠ "failed" := by
  decide

/-- C1 (amended): for every job with a valid id, an existing workspace
and a readable log whose upper-cased content contains the error marker
`ERROR`, `get_simulation_status` returns `failed` — with no hypothesis
on the completion markers (which may occur anywhere in the log) and for
either value `pr` of the liveness probe — provided reading the process
descriptor completes with a liveness boolean (`probeProcess w = .ok pr`,
i.e. it does not raise an escaping exception, which would yield
`"error"` before the log scan, as the counterexample shows). -/
theorem error_marker_forces_failed (simId : String) (w : SimWorld)
    (d : LogFileData) (pr : Bool)
    (hid : validate_simulation_id simId = true)
    (hws : w.workspaceExists = true)
    (hlog : w.logState = .readable d)
    (herr : strContains (pyUpper d.content) "ERROR" = true)
    (hpr : probeProcess w = .ok pr) :
    get_simulation_status_checked simId w =
      .ok { status := "failed", message := some "Simulation failed with errors",
            process_running := some pr } := by
  unfold get_simulation_status_checked get_simulation_status
  rw [hid, hws, hpr]
  simp only [statusFromLog, hlog, herr]
  simp

/-- C1 witness: a log with a completion marker before a lower-case error
marker, a live pid — inference still returns `failed`. -/
theorem error_marker_forces_failed_witness :
    get_simulation_status_checked "melt-42"
      { workspaceExists := true, pjson := .ok (some 7),
        logState := .readable
          { content := "Total wall time: 0:00:09\nLast error: lost atoms",
            byteSize := 48 },
        alive := fun _ => true, rmtreeRaises := none } =
      .ok { status := "failed", message := some "Simulation failed with errors",
            process_running := some true } :=
  error_marker_forces_failed "melt-42" _ _ true (by decide) rfl rfl (by decide) rfl

/-- C5: for every job with a valid id, an existing workspace and no log
file, `get_simulation_status` returns `starting` when the liveness probe
computed `process_running = true` and `pending` when it computed `false`
(so a pid that no longer exists yields `pending`, never `failed`). -/
theorem no_log_starting_or_pending (simId : String) (w : SimWorld) (pr : Bool)
    (hid : validate_simulation_id simId = true)
    (hws : w.workspaceExists = true)
    (hlog : w.logState = .absent)
    (hpr : probeProcess w = .ok pr) :
    get_simulation_status_checked simId w =
      .ok (if pr then
            { status := "starting", message := some "Simulation is starting",
              process_running := some true }
           else
            { status := "pending", message := some "Simulation not started",
              process_running := some false }) := by
  unfold get_simulation_status_checked get_simulation_status
  rw [hid, hws, hpr]
  simp only [statusFromLog, hlog]
  cases pr <;> simp

/-- C5 witness: descriptor carries pid 4242, no process with that pid is
alive, no log file — inference returns `pending` (not `failed`). -/
theorem no_log_starting_or_pending_witness :
    get_simulation_status_checked "melt-43"
      { workspaceExists := true, pjson := .ok (some 4242),
        logState := .absent, alive := fun _ => false, rmtreeRaises := none } =
      .ok { status := "pending", message := some "Simulation not started",
            process_running := some false } :=
  no_log_starting_or_pending "melt-43" _ false (by decide) rfl rfl rfl

/-- C3 counterexample: `get_simulation_status` contains no size check at
all. On two worlds whose log exceeds the 50 MB ceiling
(`byteSize = 52428801`), differing only in log content, it returns
`failed` (error marker present) and `running` (no marker, live process)
respectively — so it scans the oversized log and never reports an
oversized-log error. -/
theorem status_scans_oversized_log :
    MAX_LOG_FILE_SIZE < 52428801 ∧
    get_simulation_status
      { workspaceExists := true, pjson := .ok (some 7),
        logState := .readable
          { content := "ERROR: unexpected end of input", byteSize := 52428801 },
        alive := fun _ => true, rmtreeRaises := none } =
      { status := "failed", message := some "Simulation failed with errors",
        process_running := some true } ∧
    get_simulation_status
      { workspaceExists := true, pjson := .ok (some 7),
        logState := .readable
          { content := "Step 100 of 1000", byteSize := 52428801 },
        alive := fun _ => true, rmtreeRaises := none } =
      { status := "running", message := some "Simulation is running",
        process_running := some true } := by
  refine ⟨by decide, by decide, by decide⟩

/-- C3 (amended): the oversized-log refusal belongs to
`get_simulation_logs`: on a log exceeding the 50 MB ceiling it returns
`success = false` with the oversized-log error and does not read the
content, while `get_simulation_status` on the same world still resolves
to the marker scan of the log (`statusFromLog`), regardless of size. -/
theorem oversized_log_refused_in_logs (simId : String) (w : SimWorld)
    (d : LogFileData) (pr : Bool) (t : Int)
    (hid : validate_simulation_id simId = true)
    (hws : w.workspaceExists = true)
    (hlog : w.logState = .readable d)
    (hbig : MAX_LOG_FILE_SIZE < d.byteSize)
    (hpr : probeProcess w = .ok pr) :
    get_simulation_logs simId w t =
      .ok { success := false,
            error := some ("Log file too large (" ++ toString d.byteSize ++
              " bytes). Maximum allowed: " ++ toString MAX_LOG_FILE_SIZE ++
              " bytes") } ∧
    get_simulation_status w = statusFromLog (.readable d) pr := by
  constructor
  · unfold get_simulation_logs
    rw [hid, hws]
    simp only [hlog, Bool.not_true, Bool.false_eq_true, if_false]
    rw [if_pos hbig]
  · unfold get_simulation_status
    rw [hws, hpr, hlog]
    simp

/-- A concrete world whose log file exceeds the 50 MB ceiling. -/
def oversizedWorld : SimWorld :=
  { workspaceExists := true, pjson := .ok (some 7),
    logState := .readable
      { content := "ERROR: lost atoms", byteSize := 52428801 },
    alive := fun _ => true, rmtreeRaises := none }

/-- C3 amended-theorem witness at a concrete oversized world: the logs
endpoint refuses, and status inference still scans (returning `failed`
because of the error marker). -/
theorem oversized_log_refused_in_logs_witness :
    get_simulation_logs "melt-45" oversizedWorld 100 =
      .ok { success := false,
            error := some ("Log file too large (52428801 bytes). " ++
              "Maximum allowed: 52428800 bytes") } ∧
    get_simulation_status oversizedWorld =
      statusFromLog
        (.readable { content := "ERROR: lost atoms", byteSize := 52428801 })
        true :=
  oversized_log_refused_in_logs "melt-45" oversizedWorld
    { content := "ERROR: lost atoms", byteSize := 52428801 } true 100
    (by decide) rfl rfl (by decide) rfl

/-- C7 counterexample: when `process.json` exists but `open` raises an
`OSError` (e.g. permission denied), only the outer exception handler
catches it, and `get_simulation_status` returns the status `"error"`,
which is outside the seven-element set claimed by the spec. -/
theorem status_outside_claimed_set :
    (get_simulation_status
      { workspaceExists := true,
        pjson := .unreadable "[Errno 13] Permission denied: process.json",
        logState := .absent, alive := fun _ => false,
        rmtreeRaises := none }).status = "error" ∧
    "error" ∉ (["pending", "starting", "running", "completed", "failed",
                "not_found", "unknown"] : List String) := by
  exact ⟨rfl, by decide⟩

/-- C7 (amended): for every valid job id and every on-disk state, the
status returned by `get_simulation_status` lies in the closed set of
eight values — the seven the spec lists plus `"error"`, produced when
reading the process descriptor raises an unexpected (non-JSON-decode)
exception. -/
theorem status_in_closed_set (simId : String) (w : SimWorld) (r : StatusResult)
    (h : get_simulation_status_checked simId w = .ok r) :
    r.status ∈ ["pending", "starting", "running", "completed", "failed",
                "not_found", "unknown", "error"] := by
  by_cases hv : validate_simulation_id simId <;>
    simp [get_simulation_status_checked, hv] at h
  exact h ▸ get_simulation_status_mem w

/-- C7 witness: the amended closed-set theorem applied to a concrete world
(workspace present, empty descriptor state, no log, dead process table). -/
theorem status_in_closed_set_witness :
    ({ status := "pending", message := some "Simulation not started",
       error := none, process_running := some false } : StatusResult).status ∈
      ["pending", "starting", "running", "completed", "failed",
       "not_found", "unknown", "error"] :=
  status_in_closed_set "melt-44"
    { workspaceExists := true, pjson := .absent, logState := .absent,
      alive := fun _ => false, rmtreeRaises := none } _ rfl

/-! ### Claim theorems: staging grammar -/

/-- C6 counterexample: `"Cu.eam"` fails the job-identifier grammar
`[A-Za-z0-9_-]+` (dots are not allowed there), yet the staging loop
accepts it — its name check uses the wider class `[a-zA-Z0-9._\-]+` — so
auxiliary file names are not validated against the same grammar as job
ids, and acceptance is not equivalent to matching the job-id grammar. -/
theorem aux_name_accepted_outside_id_grammar :
    validate_simulation_id "Cu.eam" = false ∧
    stagePotentialFile (fun _ => .file none) "Cu.eam" = .ok .copied := by
  decide

/-- C6 (amended): auxiliary file names are validated against the wider
grammar `[a-zA-Z0-9._-]+` (dots additionally allowed, unlike job ids).
A name failing that grammar is skipped with a warning and the rest of
the list is still staged (no abort); a name matching it, other than the
path-escaping special case `".."`, proceeds to the exists-and-copy
step: a missing source only warns, a regular file is copied, and a
raising copy — in particular a directory source such as the in-class
name `"."`, which resolves to the potentials root itself — aborts the
launch via `run_simulation`'s handler. -/
theorem aux_name_validation (potfs : String → PotentialSource)
    (name : String) :
    (potentialNameOk name = false →
      stagePotentialFile potfs name = .ok .skippedUnsafe) ∧
    (potentialNameOk name = true → name ≠ ".." →
      stagePotentialFile potfs name = copyPotentialSource name (potfs name)) ∧
    (potentialNameOk name = false → ∀ rest,
      stagePotentialFiles potfs (name :: rest) =
        (stagePotentialFiles potfs rest).map
          (fun os => StageOutcome.skippedUnsafe :: os)) := by
  refine ⟨fun h => ?_, fun h hdd => ?_, fun h rest => ?_⟩
  · simp [stagePotentialFile, h]
  · have hb : (name == "..") = false := by
      simpa using hdd
    simp [stagePotentialFile, h, hb]
  · have hskip : stagePotentialFile potfs name = .ok .skippedUnsafe := by
      simp [stagePotentialFile, h]
    simp only [stagePotentialFiles, hskip]
    cases hres : stagePotentialFiles potfs rest <;> simp [Except.map]

/-- A concrete potentials root for the C6 witness: `Cu.eam` is a regular
file whose copy succeeds, `"."` resolves to the root directory itself,
everything else is missing. -/
def potentialsOracle : String → PotentialSource := fun n =>
  if n == "Cu.eam" then .file none
  else if n == "." then .directory
  else .missing

/-- C6 amended-theorem witness: a name with a character outside the class
is skipped and does not abort the staging of the remaining names; the
in-class dotted name `Cu.eam` is copied; the in-class name `"."` makes
the copy raise `IsADirectoryError`, aborting the launch. -/
theorem aux_name_validation_witness :
    stagePotentialFile potentialsOracle "in%valid" = .ok .skippedUnsafe ∧
    stagePotentialFile potentialsOracle "Cu.eam" = .ok .copied ∧
    stagePotentialFile potentialsOracle "." =
      .error "[Errno 21] Is a directory: ." ∧
    stagePotentialFiles potentialsOracle ["in%valid", "Cu.eam"] =
      (stagePotentialFiles potentialsOracle ["Cu.eam"]).map
        (fun os => StageOutcome.skippedUnsafe :: os) :=
  ⟨(aux_name_validation potentialsOracle "in%valid").1 (by decide),
   (aux_name_validation potentialsOracle "Cu.eam").2.1 (by decide) (by decide),
   (aux_name_validation potentialsOracle ".").2.1 (by decide) (by decide),
   (aux_name_validation potentialsOracle "in%valid").2.2
     (by decide) ["Cu.eam"]⟩

/-! ### Claim theorems: script validator -/

/-- C9: for a script within the size ceiling, the validator classifies
the subprocess outcome exactly as the claim states: exit code zero is
valid; a non-zero exit code is invalid with the captured stderr in the
`error` field; a timeout is invalid with the distinct
`"Validation timeout"` message, which differs from the message of the
non-zero-exit (script-content) failure. -/
theorem validator_classification (script : String)
    (hlen : script.length ≤ MAX_SCRIPT_SIZE) :
    (∀ s, validate_input_script script (.finished 0 s) =
      { valid := true, message := "Input script is valid" }) ∧
    (∀ rc s, rc ≠ 0 → validate_input_script script (.finished rc s) =
      { valid := false, message := "Input script validation failed",
        error := some s }) ∧
    validate_input_script script .timedOut =
      { valid := false, message := "Validation timeout",
        error := some "Script validation took too long" } ∧
    "Validation timeout" ≠ "Input script validation failed" := by
  have hno : ¬ script.length > MAX_SCRIPT_SIZE := by omega
  refine ⟨fun s => ?_, fun rc s hrc => ?_, ?_, by decide⟩
  · simp [validate_input_script, hno]
  · have hb : (rc == 0) = false := by simpa using hrc
    simp [validate_input_script, hno, hb]
  · simp [validate_input_script, hno]

/-- C9 witness at a short concrete script and concrete outcomes. -/
theorem validator_classification_witness :
    validate_input_script "units lj" (.finished 0 "") =
      { valid := true, message := "Input script is valid" } ∧
    validate_input_script "units lj" (.finished 1 "ERROR: Unknown command") =
      { valid := false, message := "Input script validation failed",
        error := some "ERROR: Unknown command" } ∧
    validate_input_script "units lj" .timedOut =
      { valid := false, message := "Validation timeout",
        error := some "Script validation took too long" } ∧
    "Validation timeout" ≠ "Input script validation failed" := by
  obtain ⟨h0, hrc, ht, hne⟩ := validator_classification "units lj" (by decide)
  exact ⟨h0 "", hrc 1 "ERROR: Unknown command" (by decide), ht, hne⟩

/-- C10: the validator is a total function — every call returns a
dictionary with a `valid` key by construction — and when the external
check raises an arbitrary (non-timeout) exception, the result is
`valid = false` with the exception text preserved in `error` (for any
script within the size ceiling; an oversized script never reaches the
subprocess but still yields `valid = false`). -/
theorem validator_converts_exception (script msg : String) :
    (validate_input_script script (.raised msg)).valid = false ∧
    (script.length ≤ MAX_SCRIPT_SIZE →
      validate_input_script script (.raised msg) =
        { valid := false, message := "Validation error",
          error := some msg }) := by
  constructor
  · unfold validate_input_script
    split <;> rfl
  · intro h
    unfold validate_input_script
    rw [if_neg (by omega)]

/-- C10 witness: a concrete raised exception is converted into a
`valid = false` result preserving its text. -/
theorem validator_converts_exception_witness :
    (validate_input_script "units lj"
      (.raised "FileNotFoundError: lmp")).valid = false ∧
    validate_input_script "units lj" (.raised "FileNotFoundError: lmp") =
      { valid := false, message := "Validation error",
        error := some "FileNotFoundError: lmp" } :=
  ⟨(validator_converts_exception "units lj" "FileNotFoundError: lmp").1,
   (validator_converts_exception "units lj" "FileNotFoundError: lmp").2
     (by decide)⟩

/-! ### Claim theorems: monitor & retry loop -/

/-- Every exit of `run_lammps_simulation` is either one of the
catch-all handler's outcomes (`retryOrFail` with some message) or the
success return. -/
theorem run_task_shape (env : TaskEnv) :
    (∃ msg, run_lammps_simulation env = retryOrFail env msg) ∨
    run_lammps_simulation env = .success := by
  unfold run_lammps_simulation
  repeat' split
  all_goals first
    | exact .inl ⟨_, rfl⟩
    | exact .inr rfl

/-- Helper: `retryOrFail` never returns the success outcome. -/
theorem retryOrFail_ne_success (env : TaskEnv) (msg : String) :
    retryOrFail env msg ≠ .success := by
  unfold retryOrFail
  split <;> simp

/-- A task environment exercising the retry path for C2: retries seen so
far `n`, an in-bounds request whose script fails the external syntax
check with a diagnostic. -/
def invalidScriptEnv (n : Nat) : TaskEnv :=
  { simulation_id := "melt-46", input_script := "units lj", mpi_processes := 1,
    validationRun := .finished 1 "ERROR: Unknown command units2",
    potfs := fun _ => .missing, potential_files := [],
    writeScriptError := none, spawnError := none,
    worlds := fun _ =>
      { workspaceExists := false, pjson := .absent, logState := .absent,
        alive := fun _ => false, rmtreeRaises := none },
    retries := n, max_retries := 3 }

/-- C2 counterexample: a failing script validation, an empty script, and
an out-of-bounds worker count all land in the catch-all handler, and
with `self.request.retries = 0 < max_retries = 3` each issues a retry —
the claim that these failure causes are never retried is false. -/
theorem validation_failures_are_retried :
    run_lammps_simulation (invalidScriptEnv 0) =
      .retry "Script validation failed: ERROR: Unknown command units2" ∧
    run_lammps_simulation
      { invalidScriptEnv 0 with input_script := "" } =
      .retry "Invalid input_script" ∧
    run_lammps_simulation
      { invalidScriptEnv 0 with mpi_processes := 17 } =
      .retry "Invalid MPI processes count" := by
  refine ⟨by decide, by decide, by decide⟩

/-- C2 (amended): an invalid-input or invalid-script failure is handled
like every other exception of the task — cleanup, then retry with
backoff while `retries < max_retries` (the decorator's 3), final
failure only once retries are exhausted. In particular the job never
returns a final failure while retries remain, and a failed script
validation never yields the success outcome. -/
theorem failures_retried_until_exhausted (env : TaskEnv) (m : String) :
    (run_lammps_simulation env = .finalFailure m →
      env.max_retries ≤ env.retries) ∧
    ((validate_input_script env.input_script env.validationRun).valid = false →
      run_lammps_simulation env ≠ .success) := by
  constructor
  · intro h
    rcases run_task_shape env with ⟨msg, hm⟩ | hs
    · rw [hm] at h
      unfold retryOrFail at h
      split_ifs at h with hr
      omega
    · rw [hs] at h
      simp at h
  · intro hv hs
    unfold run_lammps_simulation at hs
    split_ifs at hs with h1 h2 h3 h4 h5
    · exact retryOrFail_ne_success env _ hs
    · exact retryOrFail_ne_success env _ hs
    · exact retryOrFail_ne_success env _ hs
    · exact retryOrFail_ne_success env _ hs
    · exact retryOrFail_ne_success env _ hs
    · simp [hv] at h5

/-- C2 amended-theorem witness: with retries exhausted
(`retries = max_retries = 3`) the same invalid script yields the final
failure, and the invalid script never yields success. -/
theorem failures_retried_until_exhausted_witness :
    (3 : Nat) ≤ 3 ∧
    run_lammps_simulation (invalidScriptEnv 3) ≠ .success :=
  ⟨(failures_retried_until_exhausted (invalidScriptEnv 3)
      "Script validation failed: ERROR: Unknown command units2").1 (by decide),
   (failures_retried_until_exhausted (invalidScriptEnv 3) "").2 (by decide)⟩

/-- A `completedAt` exit of the poll loop records a poll whose status was
`"completed"`. -/
theorem pollLoop_completedAt (statuses : Nat → StatusResult) :
    ∀ fuel i j, pollLoop statuses fuel i = .completedAt j →
      (statuses j).status = "completed" := by
  intro fuel
  induction fuel with
  | zero => intro i j h; simp [pollLoop] at h
  | succ n ih =>
    intro i j h
    simp only [pollLoop] at h
    split_ifs at h with h1 h2
    · cases h
      simpa using h1
    · exact ih (i + 1) j h

/-- C4: the monitor returns its success outcome only when some poll of
`get_simulation_status` returned `"completed"`, which requires a
readable log containing one of the two completion markers (and no error
marker) — never by timeout and never without textual completion
evidence. -/
theorem success_requires_completion_marker (env : TaskEnv)
    (h : run_lammps_simulation env = .success) :
    ∃ j, (get_simulation_status (env.worlds j)).status = "completed" ∧
      ∃ d, (env.worlds j).logState = .readable d ∧
        strContains (pyUpper d.content) "ERROR" = false ∧
        (strContains d.content "Total wall time:" = true ∨
         strContains d.content "Loop time of" = true) := by
  unfold run_lammps_simulation at h
  split_ifs at h with h1 h2 h3 h4 h5
  · exact absurd h (retryOrFail_ne_success env _)
  · exact absurd h (retryOrFail_ne_success env _)
  · exact absurd h (retryOrFail_ne_success env _)
  · exact absurd h (retryOrFail_ne_success env _)
  · exact absurd h (retryOrFail_ne_success env _)
  · split at h
    · exact absurd h (retryOrFail_ne_success env _)
    · split at h
      · exact absurd h (retryOrFail_ne_success env _)
      · split at h
        case _ heq => exact absurd h (retryOrFail_ne_success env _)
        case _ heq => exact absurd h (retryOrFail_ne_success env _)
        case _ j heq =>
          have hc := pollLoop_completedAt _ _ _ _ heq
          exact ⟨j, hc, completed_requires_marker _ hc⟩

/-- A task environment for the C4 witness: everything in bounds, the
script passes validation, the spawn succeeds, and from the first poll on
the log carries a completion marker with the process already gone. -/
def completingEnv : TaskEnv :=
  { simulation_id := "melt-47", input_script := "units lj\nrun 100",
    mpi_processes := 1, validationRun := .finished 0 "",
    potfs := fun _ => .missing, potential_files := [],
    writeScriptError := none, spawnError := none,
    worlds := fun _ =>
      { workspaceExists := true, pjson := .ok (some 7),
        logState := .readable
          { content := "Total wall time: 0:00:03", byteSize := 24 },
        alive := fun _ => false, rmtreeRaises := none },
    retries := 0, max_retries := 3 }

/-- C4 witness: on `completingEnv` the task succeeds, so some poll
observed `"completed"` backed by a completion marker in the log. -/
theorem success_requires_completion_marker_witness :
    ∃ j, (get_simulation_status (completingEnv.worlds j)).status = "completed" ∧
      ∃ d, (completingEnv.worlds j).logState = .readable d ∧
        strContains (pyUpper d.content) "ERROR" = false ∧
        (strContains d.content "Total wall time:" = true ∨
         strContains d.content "Loop time of" = true) :=
  success_requires_completion_marker completingEnv (by decide)

/-! ### Claim theorems: cleanup idempotence -/

/-- Helper: `cleanup0` on a job with no workspace succeeds, state unchanged. -/
theorem cleanup0_no_workspace (w : SimWorld) (h : w.workspaceExists = false) :
    cleanup0 w =
      ({ success := true,
         message := some "Workspace already cleaned or not found" }, w) := by
  unfold cleanup0
  rw [h]
  simp

/-- When `shutil.rmtree` does not raise, the first cleanup call removes
the workspace. -/
theorem cleanup0_removes (w : SimWorld) (hrm : w.rmtreeRaises = none) :
    (cleanup0 w).2.workspaceExists = false := by
  unfold cleanup0
  split
  · next hws => simpa using hws
  · rw [hrm]

/-- C8: for every valid job id, cleanup is idempotent: when the first
call's removal does not raise, the second call succeeds with no error
and returns the state unchanged (no observable side effect), and in
general cleanup on a job with no workspace returns success and leaves
the state untouched. -/
theorem cleanup_idempotent (simulation_id : String) (w : SimWorld)
    (hid : validate_simulation_id simulation_id = true)
    (hrm : w.rmtreeRaises = none) :
    cleanup_simulation simulation_id (cleanup0 w).2 =
      .ok ({ success := true,
             message := some "Workspace already cleaned or not found" },
           (cleanup0 w).2) ∧
    (w.workspaceExists = false →
      cleanup_simulation simulation_id w =
        .ok ({ success := true,
               message := some "Workspace already cleaned or not found" }, w)) := by
  constructor
  · have h2 := cleanup0_removes w hrm
    rw [cleanup_simulation, hid]
    simp only [Bool.not_true, Bool.false_eq_true, if_false]
    rw [cleanup0_no_workspace _ h2]
  · intro h0
    rw [cleanup_simulation, hid]
    simp only [Bool.not_true, Bool.false_eq_true, if_false]
    rw [cleanup0_no_workspace _ h0]

/-- A concrete world for the C8 witness: workspace present, a live pid 9
in the descriptor, removal succeeds. -/
def cleanupWitnessWorld : SimWorld :=
  { workspaceExists := true, pjson := .ok (some 9), logState := .absent,
    alive := fun _ => true, rmtreeRaises := none }

/-- C8 witness: after a first cleanup of `cleanupWitnessWorld`, a second
cleanup is a no-op success; and cleanup of an already-clean world is a
no-op success. -/
theorem cleanup_idempotent_witness :
    cleanup_simulation "melt-48" (cleanup0 cleanupWitnessWorld).2 =
      .ok ({ success := true,
             message := some "Workspace already cleaned or not found" },
           (cleanup0 cleanupWitnessWorld).2) ∧
    cleanup_simulation "melt-48"
      { cleanupWitnessWorld with workspaceExists := false } =
      .ok ({ success := true,
             message := some "Workspace already cleaned or not found" },
           { cleanupWitnessWorld with workspaceExists := false }) :=
  ⟨(cleanup_idempotent "melt-48" cleanupWitnessWorld (by decide) rfl).1,
   (cleanup_idempotent "melt-48"
      { cleanupWitnessWorld with workspaceExists := false }
      (by decide) rfl).2 rfl⟩

end Lammps
